import Mathlib

/-!
Shallow embedding of the core of the GraphitiNeo4jGeminiIngestion repository:

* `graphiti_ingestion/gemini/manager.py` — `ComprehensiveManager`: API-key
  round-robin rotation with per-key cooldowns (`get_available_client_details`,
  `mark_key_cooldown`, `_is_on_cooldown`, `_init_client_generators`).
* `graphiti_ingestion/gemini/worker.py` — `GeminiAPIWorker`: the serialized
  dispatch loop (`run`, `_is_retryable_exception`, `_sleep_with_jitter`).
* `graphiti_ingestion/services/job_manager.py` — `JobManager`: the file-based
  job queue (`submit_job`, `get_next_job`, `update_job_status`,
  `requeue_job_for_retry`, `get_job_status`).
* `main.py` — the background orchestrator loop (`worker`).

Python tuples whose arity matters (generator yields, queue job tuples, the
triple returned by `get_next_job`) are embedded as Lean lists, so that the
unpacking statements of the source are faithfully fallible.  Time is modeled
as a natural number of seconds; `time.time()` is an explicit `now` argument.
-/

set_option autoImplicit false

/-! ## String helpers mirroring the Python string/path operations -/

/-- Character-list version of "does `s` start with `pat`". -/
def charsStartWith : List Char → List Char → Bool
  | _, [] => true
  | [], _ :: _ => false
  | a :: s, b :: p => a == b && charsStartWith s p

/-- Character-list version of Python's `pat in s` substring test. -/
def charsHasSub : List Char → List Char → Bool
  | [], pat => pat == []
  | a :: s, pat => charsStartWith (a :: s) pat || charsHasSub s pat

/-- Python's `pat in s` on strings (substring containment). -/
def strHasSub (s pat : String) : Bool :=
  charsHasSub s.data pat.data

/-- Python's `s.endswith(pat)`; used to model the `"*.json"` glob. -/
def strEndsWith (s pat : String) : Bool :=
  charsStartWith s.data.reverse pat.data.reverse

/-- Python's `s.lower()`. -/
def strLower (s : String) : String :=
  String.mk (s.data.map Char.toLower)

/-- Drop characters of a reversed name up to and including the first `.`;
`none` when the name has no dot. -/
def dropToDot : List Char → Option (List Char)
  | [] => none
  | c :: rest => if c == '.' then some rest else dropToDot rest

/-- Python's `pathlib.Path(name).stem`: the file name without its last
extension (`"j1.retry.json"` ↦ `"j1.retry"`, `"j1"` ↦ `"j1"`). -/
def pathStem (s : String) : String :=
  match dropToDot s.data.reverse with
  | some rest => String.mk rest.reverse
  | none => s

/-! ## ComprehensiveManager (graphiti_ingestion/gemini/manager.py)

The manager state that the claims touch: the list of API keys, the per-task
candidate list `clients = [(k, m) for k in api_keys for m in models]`, the
shared cyclic cursor of `itertools.cycle`, and the cooldown map
(`self.cooldowns : Dict[str, float]`).  The cooldown map is an association
list from key to its cooldown-until time. -/

/-- Value of `self.cooldowns.get(key, 0)`: first binding of `key`, else 0. -/
def cooldownUntil (cooldowns : List (String × Nat)) (key : String) : Nat :=
  match cooldowns with
  | [] => 0
  | (k, v) :: rest => if k == key then v else cooldownUntil rest key

/-- `ComprehensiveManager._is_on_cooldown`: `time.time() < cooldowns.get(key, 0)`. -/
def isOnCooldown (cooldowns : List (String × Nat)) (key : String) (now : Nat) : Bool :=
  now < cooldownUntil cooldowns key

/-- Update the binding of `key` in the cooldown dictionary. -/
def cooldownSet (cooldowns : List (String × Nat)) (key : String) (v : Nat) :
    List (String × Nat) :=
  match cooldowns with
  | [] => [(key, v)]
  | (k, w) :: rest =>
    if k == key then (key, v) :: rest else (k, w) :: cooldownSet rest key v

/-- `ComprehensiveManager.mark_key_cooldown`:
`self.cooldowns[api_key] = time.time() + self.api_key_cooldown_seconds`. -/
def markKeyCooldown (cooldowns : List (String × Nat)) (key : String)
    (now cooldownSeconds : Nat) : List (String × Nat) :=
  cooldownSet cooldowns key (now + cooldownSeconds)

/-- The candidate list built by `_init_client_generators`:
`clients = [(k, m) for k in self.api_keys for m in models]`. -/
def crossClients (apiKeys models : List String) : List (String × String) :=
  apiKeys.flatMap fun k => models.map fun m => (k, m)

/-- One `next()` on `itertools.cycle(clients)` holding cursor `i`:
the element at `i % len(clients)` plus the advanced cursor.  `none` models
the `StopIteration` of cycling an empty list (unreachable in the source,
where `api_keys` and `models` are checked nonempty). -/
def cycleNext (clients : List (String × String)) (i : Nat) :
    Option ((String × String) × Nat) :=
  match clients.get? (i % clients.length) with
  | some p => some (p, i + 1)
  | none => none

/-- The `for _ in range(max_checks)` scan of `get_available_client_details`:
pull candidates from the cycle, skip keys on cooldown, stop at the first
key off cooldown.  `none` is the `RuntimeError` raised after `max_checks`
candidates (or the unreachable empty-cycle case). -/
def scanForClient (clients : List (String × String)) (cooldowns : List (String × Nat))
    (now : Nat) : Nat → Nat → Option ((String × String) × Nat)
  | _, 0 => none
  | i, fuel + 1 =>
    match cycleNext clients i with
    | none => none
    | some (p, i') =>
      if isOnCooldown cooldowns p.1 now then scanForClient clients cooldowns now i' fuel
      else some (p, i')

/-- Number of round-robin candidates the scan inspects. -/
def scanCount (clients : List (String × String)) (cooldowns : List (String × Nat))
    (now : Nat) : Nat → Nat → Nat
  | _, 0 => 0
  | i, fuel + 1 =>
    match cycleNext clients i with
    | none => 0
    | some (p, i') =>
      if isOnCooldown cooldowns p.1 now then 1 + scanCount clients cooldowns now i' fuel
      else 1

/-- State of one generator object returned by `get_available_client_details`
(`force_best_model=False`): a reference to the shared candidate cycle
(`clients` and cursor `idx`), the `max_checks` bound computed in its body,
and whether the single `yield` statement has already run. -/
structure ClientGen where
  clients : List (String × String)
  idx : Nat
  maxChecks : Nat
  yielded : Bool
  deriving Repr, DecidableEq

/-- Result of one `next()` on a `get_available_client_details` generator. -/
inductive GenStep where
  /-- The generator ran `yield api_key, model_name`: a Python 2-tuple,
  embedded as a two-element list, plus the updated generator state. -/
  | yieldedTup (tup : List String) (g : ClientGen)
  /-- The generator body already returned: `next()` raises `StopIteration`. -/
  | stopIter
  /-- The scan exhausted `max_checks` candidates: the body raises
  `RuntimeError("All available API keys are currently on cooldown...")`. -/
  | exhaustedErr
  deriving Repr, DecidableEq

/-- One `next()` on a `get_available_client_details` generator object.
After its one `yield ... ; return`, every further `next()` raises
`StopIteration`. -/
def genNext (g : ClientGen) (cooldowns : List (String × Nat)) (now : Nat) : GenStep :=
  if g.yielded then .stopIter
  else
    match scanForClient g.clients cooldowns now g.idx g.maxChecks with
    | some (p, idx') => .yieldedTup [p.1, p.2] { g with idx := idx', yielded := true }
    | none => .exhaustedErr

/-- A fresh generator for a task whose candidate cycle is `clients` with
shared cursor `idx`, for a manager holding `numKeys` API keys
(`max_checks = len(self.api_keys) * 5`). -/
def freshGen (clients : List (String × String)) (idx numKeys : Nat) : ClientGen :=
  { clients := clients, idx := idx, maxChecks := numKeys * 5, yielded := false }

/-- Pool-level `next()` as the spec uses it: a fresh generator plus its first
`next()`, reading and advancing the shared cursor. -/
def poolNext (clients : List (String × String)) (cooldowns : List (String × Nat))
    (now : Nat) (numKeys idx : Nat) : Option ((String × String) × Nat) :=
  scanForClient clients cooldowns now idx (numKeys * 5)

/-- Trace of the pairs returned by `j` successive pool-level `next()` calls;
the trace stops early if the pool raises. -/
def poolTrace (clients : List (String × String)) (cooldowns : List (String × Nat))
    (now : Nat) (numKeys : Nat) : Nat → Nat → List (String × String)
  | _, 0 => []
  | idx, j + 1 =>
    match poolNext clients cooldowns now numKeys idx with
    | some (p, idx') => p :: poolTrace clients cooldowns now numKeys idx' j
    | none => []

example : crossClients ["k1", "k2"] ["m1", "m2"] =
    [("k1", "m1"), ("k1", "m2"), ("k2", "m1"), ("k2", "m2")] := by decide

example : poolTrace (crossClients ["k1", "k2"] ["m1"]) [] 0 2 0 2 =
    [("k1", "m1"), ("k2", "m1")] := by decide

example : genNext (freshGen [("k1", "m1")] 0 1) [] 5 =
    .yieldedTup ["k1", "m1"] ⟨[("k1", "m1")], 1, 5, true⟩ := by decide

example : isOnCooldown (markKeyCooldown [] "k1" 10 60) "k1" 69 = true := by decide

example : isOnCooldown (markKeyCooldown [] "k1" 10 60) "k1" 70 = false := by decide

/-! ## GeminiAPIWorker (graphiti_ingestion/gemini/worker.py)

The dispatcher thread.  Its per-job execution is embedded as `runOneJob`:
unpack the job tuple pulled from the queue, then run the bounded attempt
loop of `run`, acquiring `(api_key, model_name)` through the single
generator object created once at thread start
(`client_generator = self.manager.get_available_client_details(...)`).
Exceptions raised outside the inner `try` (the generator `next()` and the
tuple unpackings) are caught only by the loop's outermost handler, which
logs and moves on without touching the job's future: constructor
`crashedUnresolved`. -/

/-- The external-call errors `_is_retryable_exception` distinguishes:
`genai_errors.ServerError`, `genai_errors.ClientError` (each carrying an
HTTP status code) and anything else, inspected through `str(exc).lower()`. -/
inductive GError where
  | serverError (code : Nat) (msg : String)
  | clientError (code : Nat) (msg : String)
  | otherError (msg : String)
  deriving Repr, DecidableEq

/-- The `network_hints` tuple of `_is_retryable_exception`. -/
def networkHints : List String :=
  ["timeout", "temporarily", "temporary", "unavailable",
   "connection reset by peer", "connection reset", "connection aborted", "timed out"]

/-- `_is_retryable_exception`: 5xx `ServerError` is retryable; `ClientError`
is retryable only for 429; otherwise retryable iff a network hint occurs in
the lowercased message. -/
def isRetryableException : GError → Bool × Option Nat
  | .serverError code _ => (true, some code)
  | .clientError code _ =>
    if code == 429 then (true, some code) else (false, some code)
  | .otherError msg =>
    if networkHints.any (fun h => strHasSub (strLower msg) h) then (true, none)
    else (false, none)

/-- `GeminiAPIWorker._sleep_with_jitter` backoff value:
`min(self.max_backoff, self.base_backoff * (attempt_idx + 1))`. -/
def backoffOf (baseBackoff maxBackoff : ℚ) (attemptIdx : Nat) : ℚ :=
  min maxBackoff (baseBackoff * (attemptIdx + 1))

/-- `GeminiAPIWorker._sleep_with_jitter` sleep duration:
`backoff * (0.5 + random.random())`, with `r` the value of
`random.random()` (so `0 ≤ r < 1`). -/
def sleepWithJitter (baseBackoff maxBackoff : ℚ) (attemptIdx : Nat) (r : ℚ) : ℚ :=
  backoffOf baseBackoff maxBackoff attemptIdx * (1 / 2 + r)

/-- Fields of the job tuple carried on the worker queue.  The async client
(`ManagedGeminiClient._execute_job`) enqueues
`(messages, gen_config, future, loop, retry_count)` — five fields. -/
inductive PyField where
  | messagesF
  | genConfigF
  | futureF
  | loopF
  | retryCountF (n : Nat)
  deriving Repr, DecidableEq

/-- The 5-tuple `ManagedGeminiClient._execute_job` puts on the work queue:
`self._work_queue.put((messages, gen_config, future, loop, retry_count))`. -/
def clientJobTuple (retryCount : Nat) : List PyField :=
  [.messagesF, .genConfigF, .futureF, .loopF, .retryCountF retryCount]

/-- The worker's own unpacking
`original_messages, gen_config, future, loop = job`: succeeds only on a
4-tuple, otherwise raises `ValueError`. -/
def unpackJob4 : List PyField → Option (PyField × PyField × PyField × PyField)
  | [a, b, c, d] => some (a, b, c, d)
  | _ => none

/-- The worker's per-attempt unpacking
`api_key, model_name, _ = next(client_generator)`: succeeds only on a
3-tuple, otherwise raises `ValueError`. -/
def unpackClient3 : List String → Option (String × String × String)
  | [a, b, c] => some (a, b, c)
  | _ => none

/-- Final state of the worker's handling of one job. -/
inductive JobOutcome where
  /-- `loop.call_soon_threadsafe(future.set_result, (response, model_name))`. -/
  | futureResolved (response : String) (model : String)
  /-- `future.set_exception(e)` with the original non-retryable error. -/
  | futureRejected (err : GError)
  /-- The `for ... else` branch after `max_attempts` retryable failures:
  `future.set_exception(Exception("Failed after ... attempts..."))`. -/
  | attemptsExhausted (lastErr : Option GError)
  /-- An exception escaped to the loop's outermost `except`: it is only
  logged, and the job's future is never resolved nor rejected. -/
  | crashedUnresolved (reason : String)
  deriving Repr, DecidableEq

/-- Everything observable about the worker's handling of one job. -/
structure DispatchResult where
  outcome : JobOutcome
  cooldowns : List (String × Nat)
  gen : ClientGen
  callsMade : Nat
  backoffSleeps : List Nat
  deriving Repr, DecidableEq

/-- The `for attempt in range(self.max_attempts)` loop of
`GeminiAPIWorker.run`, lines 124–167.  `transport callIdx` is the outcome of
the `callIdx`-th actual `client.models.generate_content` call.
`backoffSleeps` records the attempt index of each `_sleep_with_jitter`
call. -/
def attemptLoop (cooldownSeconds now : Nat) (transport : Nat → Except GError String) :
    Nat → Nat → Nat → ClientGen → List (String × Nat) → List Nat → Option GError →
    DispatchResult
  | 0, _, callIdx, g, cooldowns, sleeps, lastExc =>
    ⟨.attemptsExhausted lastExc, cooldowns, g, callIdx, sleeps⟩
  | fuel + 1, attemptIdx, callIdx, g, cooldowns, sleeps, _ =>
    match genNext g cooldowns now with
    | .stopIter =>
      ⟨.crashedUnresolved "StopIteration from spent client generator", cooldowns, g,
        callIdx, sleeps⟩
    | .exhaustedErr =>
      ⟨.crashedUnresolved "RuntimeError: all API keys on cooldown", cooldowns, g,
        callIdx, sleeps⟩
    | .yieldedTup tup g' =>
      match unpackClient3 tup with
      | none =>
        ⟨.crashedUnresolved "ValueError: not enough values to unpack (expected 3, got 2)",
          cooldowns, g', callIdx, sleeps⟩
      | some (apiKey, modelName, _) =>
        match transport callIdx with
        | .ok resp =>
          ⟨.futureResolved resp modelName,
            markKeyCooldown cooldowns apiKey now cooldownSeconds, g', callIdx + 1, sleeps⟩
        | .error e =>
          if (isRetryableException e).1 then
            attemptLoop cooldownSeconds now transport fuel (attemptIdx + 1) (callIdx + 1)
              g' cooldowns (sleeps ++ [attemptIdx]) (some e)
          else
            ⟨.futureRejected e, cooldowns, g', callIdx + 1, sleeps⟩

/-- Processing of one dequeued job by `GeminiAPIWorker.run`: unpack the job
tuple (`original_messages, gen_config, future, loop = job`), then run the
attempt loop against the worker's single generator object.  The
message-to-contents conversion is treated as succeeding (its failure path
rejects the future and is not touched by any claim). -/
def runOneJob (maxAttempts cooldownSeconds now : Nat)
    (transport : Nat → Except GError String) (job : List PyField) (g : ClientGen)
    (cooldowns : List (String × Nat)) : DispatchResult :=
  match unpackJob4 job with
  | none =>
    ⟨.crashedUnresolved "ValueError: too many values to unpack (expected 4, got 5)",
      cooldowns, g, 0, []⟩
  | some _ => attemptLoop cooldownSeconds now transport maxAttempts 0 0 g cooldowns [] none

/-- Mock transport of the spec's first CallDispatcher test: a 503 on the
first two calls, success afterwards. -/
def transport503 : Nat → Except GError String := fun i =>
  if i < 2 then .error (.serverError 503 "Service Unavailable") else .ok "response-text"

/-- Mock transport of the spec's second CallDispatcher test: always 400. -/
def transport400 : Nat → Except GError String := fun _ =>
  .error (.clientError 400 "Bad Request")

example :
    genNext (freshGen (crossClients ["k1", "k2"] ["m1"]) 0 2) [] 0 =
    .yieldedTup ["k1", "m1"] ⟨crossClients ["k1", "k2"] ["m1"], 1, 10, true⟩ := by decide

/-! ## JobManager (graphiti_ingestion/services/job_manager.py)

The file-based queue.  Each status directory is a list of named files in
iteration order (standing for the directory listing that `glob` walks);
file contents are the parsed JSON records the source writes.  `ctime` is
the Linux change time that `os.path.getctime` reads; both writing and
renaming a file refresh it. -/

/-- Content of a `{jobId}.retry.json` file. -/
structure RetryData where
  retryCount : Nat
  lastFailureReason : String
  deriving Repr, DecidableEq

/-- Content of a `{jobId}.status.json` file. -/
structure StatusInfo where
  jobId : String
  status : String
  message : String
  submittedAt : Nat
  lastUpdated : Nat
  retryCount : Nat
  processingTimeSeconds : Option Nat
  deriving Repr, DecidableEq

/-- Parsed content of a job-queue file: the opaque payload JSON of
`{jobId}.json`, a status record, or a retry record. -/
inductive FileData where
  | payloadD (p : String)
  | statusD (s : StatusInfo)
  | retryD (r : RetryData)
  deriving Repr, DecidableEq

/-- A directory entry: file name, parsed content, change time. -/
structure DirEntry where
  name : String
  content : FileData
  ctime : Nat
  deriving Repr, DecidableEq

/-- A status directory. -/
abbrev Dir := List DirEntry

/-- `Path.exists` within one directory. -/
def fexists (d : Dir) (name : String) : Bool :=
  d.any fun e => e.name == name

/-- `read_text` plus `json.loads` within one directory. -/
def fread (d : Dir) (name : String) : Option FileData :=
  (d.find? fun e => e.name == name).map (·.content)

/-- `write_text`: overwrite in place, or create at the end of the listing. -/
def fwrite : Dir → String → FileData → Nat → Dir
  | [], name, c, now => [⟨name, c, now⟩]
  | e :: rest, name, c, now =>
    if e.name == name then ⟨name, c, now⟩ :: rest else e :: fwrite rest name c now

/-- Remove a file from a directory listing. -/
def fdelete : Dir → String → Dir
  | [], _ => []
  | e :: rest, name => if e.name == name then rest else e :: fdelete rest name

/-- The four status directories created by `JobManager.__init__`. -/
structure Store where
  pending : Dir
  processing : Dir
  completed : Dir
  failed : Dir
  deriving Repr, DecidableEq

/-- A freshly initialized job-queue directory tree. -/
def emptyStore : Store := ⟨[], [], [], []⟩

/-- Iteration order of `self.paths` (Python dict insertion order). -/
def statusNames : List String := ["pending", "processing", "completed", "failed"]

/-- Directory of a given status. -/
def Store.dirOf (s : Store) (st : String) : Dir :=
  if st == "pending" then s.pending
  else if st == "processing" then s.processing
  else if st == "completed" then s.completed
  else s.failed

/-- Replace the directory of a given status. -/
def Store.setDir (s : Store) (st : String) (d : Dir) : Store :=
  if st == "pending" then { s with pending := d }
  else if st == "processing" then { s with processing := d }
  else if st == "completed" then { s with completed := d }
  else { s with failed := d }

/-- `Path.rename` across status directories (file names are preserved by
every rename in the source).  A missing source file leaves the store
unchanged; every call site guards with an existence check. -/
def renameFile (s : Store) (stSrc srcName stDest destName : String) (now : Nat) : Store :=
  match fread (s.dirOf stSrc) srcName with
  | none => s
  | some c =>
    let s1 := s.setDir stSrc (fdelete (s.dirOf stSrc) srcName)
    s1.setDir stDest (fwrite (s1.dirOf stDest) destName c now)

/-- `JobManager.submit_job`: write `{jobId}.json` then `{jobId}.status.json`
into `pending/`, with no duplicate check of any kind. -/
def submitJob (s : Store) (jobId payload : String) (now : Nat) : Store :=
  let s1 := s.setDir "pending" (fwrite s.pending (jobId ++ ".json") (.payloadD payload) now)
  let info : StatusInfo :=
    ⟨jobId, "pending", "Job is waiting in the queue.", now, now, 0, none⟩
  s1.setDir "pending" (fwrite s1.pending (jobId ++ ".status.json") (.statusD info) now)

/-- Scan of `JobManager.get_job_status` over the four status directories in
`self.paths` order. -/
def getJobStatusIn (s : Store) (jobId : String) : List String → Option StatusInfo
  | [] => none
  | st :: rest =>
    if fexists (s.dirOf st) (jobId ++ ".status.json") then
      match fread (s.dirOf st) (jobId ++ ".status.json") with
      | some (.statusD info) => some info
      | _ => none
    else getJobStatusIn s jobId rest

/-- `JobManager.get_job_status`. -/
def getJobStatus (s : Store) (jobId : String) : Option StatusInfo :=
  getJobStatusIn s jobId statusNames

/-- `JobManager.update_job_status`: locate the job's status record, move its
three files to the new status directory when the status changes, then
rewrite the status record (with `message or old`, `retry_count if not None
else old`, and `processing_time_seconds` on completion). -/
def updateJobStatus (s : Store) (jobId newStatus : String) (message : Option String)
    (retryCount : Option Nat) (now : Nat) : Store :=
  match getJobStatus s jobId with
  | none => s
  | some info =>
    let current := info.status
    let names := [jobId ++ ".json", jobId ++ ".status.json", jobId ++ ".retry.json"]
    let s1 :=
      if current == newStatus then s
      else
        names.foldl
          (fun acc n =>
            if fexists (acc.dirOf current) n then renameFile acc current n newStatus n now
            else acc) s
    let newMessage :=
      match message with
      | some m => if m == "" then info.message else m
      | none => info.message
    let info1 : StatusInfo :=
      { info with
        status := newStatus, lastUpdated := now, message := newMessage,
        retryCount := retryCount.getD info.retryCount }
    let info2 :=
      if newStatus == "completed" then
        { info1 with processingTimeSeconds := some (info1.lastUpdated - info1.submittedAt) }
      else info1
    s1.setDir newStatus
      (fwrite (s1.dirOf newStatus) (jobId ++ ".status.json") (.statusD info2) now)

/-- `JobManager.requeue_job_for_retry`: move the job's files back to
`pending/`, write a fresh `{jobId}.retry.json`, then update the status
record to pending with the new retry count. -/
def requeueJobForRetry (s : Store) (jobId : String) (newRetryCount : Nat)
    (message : String) (now : Nat) : Store :=
  match getJobStatus s jobId with
  | none => s
  | some info =>
    let current := info.status
    let names := [jobId ++ ".json", jobId ++ ".status.json", jobId ++ ".retry.json"]
    let s1 :=
      names.foldl
        (fun acc n =>
          if fexists (acc.dirOf current) n then renameFile acc current n "pending" n now
          else acc) s
    let s2 := s1.setDir "pending"
      (fwrite (s1.dirOf "pending") (jobId ++ ".retry.json")
        (.retryD ⟨newRetryCount, message⟩) now)
    updateJobStatus s2 jobId "pending" (some message) (some newRetryCount) now

/-- The candidate list of `get_next_job`:
`[f for f in pending_path.glob("*.json") if ".status" not in f.name]`. -/
def globJobFiles (pending : Dir) : Dir :=
  (pending.filter fun e => strEndsWith e.name ".json").filter
    fun e => !(strHasSub e.name ".status")

/-- Python's `min(files, key=os.path.getctime)`: the leftmost entry of
minimal change time. -/
def minByCtime : Dir → Option DirEntry
  | [] => none
  | e :: rest =>
    match minByCtime rest with
    | none => some e
    | some m => if e.ctime ≤ m.ctime then some e else some m

/-- `JobManager.get_next_job`: pick the oldest candidate file (preferring
candidates without a `{stem}.retry.json` sibling), read the retry count,
move the file pair (plus retry file) to `processing/`, update the status
record, and return `(job_id, payload, retry_count)` with the new store.
The `FileNotFoundError` race branch is unreachable with a single process,
as is a missing data file after the move. -/
def getNextJob (s : Store) (now : Nat) : Option (String × FileData × Nat) × Store :=
  let jobFiles := globJobFiles s.pending
  if jobFiles.isEmpty then (none, s)
  else
    let nonRetried :=
      jobFiles.filter fun e => !(fexists s.pending (pathStem e.name ++ ".retry.json"))
    let target? := if nonRetried.isEmpty then minByCtime jobFiles else minByCtime nonRetried
    match target? with
    | none => (none, s)
    | some target =>
      let jobId := pathStem target.name
      let retryCount :=
        match fread s.pending (jobId ++ ".retry.json") with
        | some (.retryD r) => r.retryCount
        | _ => 0
      let s1 := renameFile s "pending" target.name "processing" (jobId ++ ".json") now
      let s2 :=
        [".status.json", ".retry.json"].foldl
          (fun acc suffix =>
            if fexists acc.pending (jobId ++ suffix) then
              renameFile acc "pending" (jobId ++ suffix) "processing" (jobId ++ suffix) now
            else acc) s1
      let s3 := updateJobStatus s2 jobId "processing"
        (some ("Worker processing (Attempt #" ++ toString (retryCount + 1) ++ ")."))
        (some retryCount) now
      match fread s3.processing (jobId ++ ".json") with
      | some content => (some (jobId, content, retryCount), s3)
      | none => (none, s3)

example :
    getNextJob (submitJob emptyStore "j1" "PAYLOAD1" 0) 1 =
      (some ("j1", .payloadD "PAYLOAD1", 0),
        ⟨[],
         [⟨"j1.json", .payloadD "PAYLOAD1", 1⟩,
          ⟨"j1.status.json",
            .statusD ⟨"j1", "processing", "Worker processing (Attempt #1).", 0, 1, 0, none⟩,
            1⟩],
         [], []⟩) := by decide

/-! ## Orchestrator loop (main.py, `worker`)

One iteration of the background polling loop.  `get_next_job` returns a
Python 3-tuple `(job_id, data, retry_count)`; the loop unpacks it with
`job_id, data = job_details` — a 2-ary unpacking — and any exception that
escapes (including the resulting `ValueError`) is caught by the outer
`except Exception`, which only logs and sleeps. -/

/-- Values carried in the tuple returned by `get_next_job`. -/
inductive PyVal where
  | vStr (s : String)
  | vData (d : FileData)
  | vNat (n : Nat)
  deriving Repr, DecidableEq

/-- `get_next_job` as the orchestrator sees it: its result tuple as a list,
so the arity of the unpacking in `main.py` is observable. -/
def getNextJobTuple (s : Store) (now : Nat) : Option (List PyVal) × Store :=
  match getNextJob s now with
  | (some (jobId, d, rc), s') => (some [.vStr jobId, .vData d, .vNat rc], s')
  | (none, s') => (none, s')

/-- The orchestrator's unpacking `job_id, data = job_details`: succeeds only
on a 2-tuple, otherwise raises `ValueError`. -/
def unpackWorker2 : List PyVal → Option (PyVal × PyVal)
  | [a, b] => some (a, b)
  | _ => none

/-- Observable outcome of one iteration of `worker` in `main.py`. -/
inductive OrchestratorOutcome where
  /-- No pending job: `await asyncio.sleep(5)`. -/
  | idleSlept
  /-- `process_and_add_episode` returned: job updated to COMPLETED. -/
  | completedJob (jobId : String)
  /-- `process_and_add_episode` raised: job updated to FAILED. -/
  | failedJob (jobId : String) (errMsg : String)
  /-- An exception reached the loop's outer `except Exception`: it is only
  logged (`await asyncio.sleep(10)`); no status transition happens. -/
  | crashedLoop (reason : String)
  deriving Repr, DecidableEq

/-- One iteration of the `worker` polling loop in `main.py`.
`processEpisode` is the external collaborator
`graphiti_service.process_and_add_episode`; its `Except` error is the
stringified exception.  Note the iteration never calls
`requeue_job_for_retry`: the only transitions it can make are to COMPLETED
and FAILED, and the 2-ary unpacking of the 3-tuple crashes before either. -/
def workerStep (s : Store) (processEpisode : FileData → Except String Unit) (now : Nat) :
    OrchestratorOutcome × Store :=
  match getNextJobTuple s now with
  | (none, s') => (.idleSlept, s')
  | (some jobDetails, s') =>
    match unpackWorker2 jobDetails with
    | none =>
      (.crashedLoop "ValueError: too many values to unpack (expected 2, got 3)", s')
    | some (.vStr jobId, .vData d) =>
      match processEpisode d with
      | .ok _ =>
        (.completedJob jobId,
          updateJobStatus s' jobId "completed" (some "Episode successfully ingested.")
            none now)
      | .error e =>
        (.failedJob jobId e,
          updateJobStatus s' jobId "failed" (some ("Failed to process episode: " ++ e))
            none now)
    | some _ => (.crashedLoop "unexpected job tuple shape", s')

example :
    getJobStatus (submitJob emptyStore "j1" "PAYLOAD1" 0) "j1" =
    some ⟨"j1", "pending", "Job is waiting in the queue.", 0, 0, 0, none⟩ := by decide

/-! ## Helper lemmas about the credential pool -/

theorem cooldownUntil_cooldownSet_self (cooldowns : List (String × Nat)) (key : String)
    (v : Nat) : cooldownUntil (cooldownSet cooldowns key v) key = v := by
  induction cooldowns with
  | nil => simp [cooldownSet, cooldownUntil]
  | cons e rest ih =>
    by_cases h : e.1 == key
    · simp [cooldownSet, cooldownUntil, h]
    · simp only [cooldownSet, cooldownUntil, h, if_neg, Bool.false_eq_true,
        not_false_eq_true, if_false]
      exact ih

theorem isOnCooldown_markKeyCooldown_self (cooldowns : List (String × Nat)) (key : String)
    (t dur now : Nat) :
    isOnCooldown (markKeyCooldown cooldowns key t dur) key now = decide (now < t + dur) := by
  simp [isOnCooldown, markKeyCooldown, cooldownUntil_cooldownSet_self]

/-- An element pulled from the cycle is an element of the candidate list. -/
theorem cycleNext_mem {clients : List (String × String)} {i : Nat}
    {p : String × String} {i' : Nat} (h : cycleNext clients i = some (p, i')) :
    p ∈ clients := by
  unfold cycleNext at h
  cases hg : clients.get? (i % clients.length) with
  | none => rw [hg] at h; cases h
  | some q =>
    rw [hg] at h
    cases h
    exact List.get?_mem hg

/-- A pair returned by the candidate scan is off cooldown at scan time. -/
theorem scanForClient_off_cooldown (clients : List (String × String))
    (cooldowns : List (String × Nat)) (now : Nat) :
    ∀ fuel i p i', scanForClient clients cooldowns now i fuel = some (p, i') →
      isOnCooldown cooldowns p.1 now = false := by
  intro fuel
  induction fuel with
  | zero => intro i p i' h; cases h
  | succ n ih =>
    intro i p i' h
    unfold scanForClient at h
    cases hc : cycleNext clients i with
    | none => rw [hc] at h; cases h
    | some qi =>
      obtain ⟨q, j⟩ := qi
      rw [hc] at h
      dsimp only at h
      cases hcool : isOnCooldown cooldowns q.1 now with
      | true =>
        rw [hcool] at h
        simp only [if_true] at h
        exact ih j p i' h
      | false =>
        rw [hcool] at h
        simp only [Bool.false_eq_true, if_false] at h
        simp only [Option.some.injEq, Prod.mk.injEq] at h
        obtain ⟨rfl, -⟩ := h
        exact hcool

/-- With every candidate's key on cooldown the scan finds nothing. -/
theorem scanForClient_none_of_all_cooldown (clients : List (String × String))
    (cooldowns : List (String × Nat)) (now : Nat)
    (hall : ∀ p ∈ clients, isOnCooldown cooldowns p.1 now = true) :
    ∀ fuel i, scanForClient clients cooldowns now i fuel = none := by
  intro fuel
  induction fuel with
  | zero => intro i; rfl
  | succ n ih =>
    intro i
    unfold scanForClient
    cases hc : cycleNext clients i with
    | none => rfl
    | some qi =>
      obtain ⟨q, j⟩ := qi
      dsimp only
      rw [hall q (cycleNext_mem hc)]
      simpa using ih j

/-- The scan inspects at most `fuel` candidates. -/
theorem scanCount_le (clients : List (String × String)) (cooldowns : List (String × Nat))
    (now : Nat) : ∀ fuel i, scanCount clients cooldowns now i fuel ≤ fuel := by
  intro fuel
  induction fuel with
  | zero => intro i; exact Nat.le_refl 0
  | succ n ih =>
    intro i
    unfold scanCount
    cases cycleNext clients i with
    | none => exact Nat.zero_le _
    | some qi =>
      dsimp only
      by_cases hcool : isOnCooldown cooldowns qi.1.1 now = true
      · rw [if_pos hcool]
        have := ih qi.2
        omega
      · rw [if_neg hcool]
        omega

/-- A key of a pair in the credentials-times-models cross product is one of
the loaded API keys. -/
theorem mem_crossClients_keys {apiKeys models : List String} {p : String × String}
    (h : p ∈ crossClients apiKeys models) : p.1 ∈ apiKeys := by
  simp only [crossClients, List.mem_flatMap, List.mem_map] at h
  obtain ⟨k, hk, m, _, hpm⟩ := h
  rw [← hpm]
  exact hk

/-- C5.  With every credential on cooldown, `get_available_client_details`
inspects at most `len(api_keys) * 5` round-robin candidates
(`max_checks`), its scan finds no candidate, and a fresh generator's
`next()` raises the all-keys-on-cooldown `RuntimeError` — the loop is
bounded by construction and never spins unboundedly. -/
theorem claim5_bounded_scan_all_cooldown (apiKeys models : List String)
    (cooldowns : List (String × Nat)) (now idx : Nat)
    (hall : ∀ k ∈ apiKeys, isOnCooldown cooldowns k now = true) :
    scanForClient (crossClients apiKeys models) cooldowns now idx (apiKeys.length * 5) =
      none ∧
    scanCount (crossClients apiKeys models) cooldowns now idx (apiKeys.length * 5) ≤
      apiKeys.length * 5 ∧
    genNext (freshGen (crossClients apiKeys models) idx apiKeys.length) cooldowns now =
      .exhaustedErr := by
  have hcl : ∀ p ∈ crossClients apiKeys models, isOnCooldown cooldowns p.1 now = true :=
    fun p hp => hall p.1 (mem_crossClients_keys hp)
  have hnone := scanForClient_none_of_all_cooldown _ _ _ hcl (apiKeys.length * 5) idx
  refine ⟨hnone, scanCount_le _ _ _ _ _, ?_⟩
  simp [genNext, freshGen, hnone]

/-- Witness for C5 at a one-key pool whose key is cooling down. -/
theorem claim5_witness :
    scanForClient (crossClients ["k1"] ["m1"]) [("k1", 100)] 0 0 (["k1"].length * 5) =
      none ∧
    scanCount (crossClients ["k1"] ["m1"]) [("k1", 100)] 0 0 (["k1"].length * 5) ≤
      ["k1"].length * 5 ∧
    genNext (freshGen (crossClients ["k1"] ["m1"]) 0 ["k1"].length) [("k1", 100)] 0 =
      .exhaustedErr :=
  claim5_bounded_scan_all_cooldown ["k1"] ["m1"] [("k1", 100)] 0 0 (by decide)

/-- C7.  After `mark_key_cooldown(c)` at time `t`, no successful scan
returns credential `c` while `now < t + cooldown`, and once
`t + cooldown ≤ now` the key is no longer reported on cooldown (so it is
excluded only during the window). -/
theorem claim7_cooldown_window (cooldowns : List (String × Nat)) (c : String)
    (t dur now now2 : Nat) (clients : List (String × String)) (idx fuel idx' : Nat)
    (p : String × String)
    (hnow : now < t + dur)
    (hscan : scanForClient clients (markKeyCooldown cooldowns c t dur) now idx fuel =
      some (p, idx')) :
    p.1 ≠ c ∧ (t + dur ≤ now2 →
      isOnCooldown (markKeyCooldown cooldowns c t dur) c now2 = false) := by
  constructor
  · intro hpc
    have hoff := scanForClient_off_cooldown _ _ _ fuel idx p idx' hscan
    rw [hpc, isOnCooldown_markKeyCooldown_self] at hoff
    exact absurd hnow (by simpa using hoff)
  · intro hle
    rw [isOnCooldown_markKeyCooldown_self]
    simpa using Nat.not_lt.mpr hle

/-- Witness for C7: key `k1` marked at time 0 with a 60 second cooldown is
skipped by a scan at time 30, and off cooldown at time 60. -/
theorem claim7_witness :
    ("k2", "m1").1 ≠ "k1" ∧ (0 + 60 ≤ 60 →
      isOnCooldown (markKeyCooldown [] "k1" 0 60) "k1" 60 = false) :=
  claim7_cooldown_window [] "k1" 0 60 30 60 [("k1", "m1"), ("k2", "m1")] 0 10 2
    ("k2", "m1") (by decide) (by decide)

/-- C9.  The dispatcher's backoff sleep equals
`min(maxBackoff, baseBackoff * (attempt + 1)) * (0.5 + r)` — linear in the
attempt index and capped at `maxBackoff` — and for any jitter draw
`0 ≤ r < 1` it lies in `[0.5 * b, 1.5 * b)`. -/
theorem claim9_jitter_bounds (baseBackoff maxBackoff r : ℚ) (attemptIdx : Nat)
    (hbase : 0 < baseBackoff) (hmax : 0 < maxBackoff) (hr0 : 0 ≤ r) (hr1 : r < 1) :
    sleepWithJitter baseBackoff maxBackoff attemptIdx r =
      min maxBackoff (baseBackoff * (attemptIdx + 1)) * (1 / 2 + r) ∧
    1 / 2 * backoffOf baseBackoff maxBackoff attemptIdx ≤
      sleepWithJitter baseBackoff maxBackoff attemptIdx r ∧
    sleepWithJitter baseBackoff maxBackoff attemptIdx r <
      3 / 2 * backoffOf baseBackoff maxBackoff attemptIdx := by
  have hbpos : 0 < backoffOf baseBackoff maxBackoff attemptIdx := by
    apply lt_min hmax
    positivity
  refine ⟨rfl, ?_, ?_⟩
  · unfold sleepWithJitter
    nlinarith [hbpos, hr0]
  · unfold sleepWithJitter
    nlinarith [hbpos, hr1]

/-- With no cooldown active the scan succeeds immediately on the candidate
under the cursor and advances the cursor by one. -/
theorem scanForClient_no_cooldown (clients : List (String × String)) (now idx fuel : Nat)
    (hne : clients ≠ []) :
    scanForClient clients [] now idx (fuel + 1) =
      some (clients.getD (idx % clients.length) ("", ""), idx + 1) := by
  have hlt : idx % clients.length < clients.length :=
    Nat.mod_lt _ (List.length_pos.mpr hne)
  have hget : clients.get? (idx % clients.length) =
      some (clients.getD (idx % clients.length) ("", "")) := by
    rw [List.get?_eq_getElem?, List.getElem?_eq_getElem hlt,
      List.getD_eq_getElem _ _ hlt]
  unfold scanForClient cycleNext
  rw [hget]
  dsimp only
  have hoff : isOnCooldown [] (clients.getD (idx % clients.length) ("", "")).1 now =
      false := by
    simp [isOnCooldown, cooldownUntil]
  rw [hoff]
  simp

/-- Pool-level `next()` with no cooldown active. -/
theorem poolNext_no_cooldown (clients : List (String × String)) (now numKeys idx : Nat)
    (hnk : 1 ≤ numKeys) (hne : clients ≠ []) :
    poolNext clients [] now numKeys idx =
      some (clients.getD (idx % clients.length) ("", ""), idx + 1) := by
  obtain ⟨f, hf⟩ : ∃ f, numKeys * 5 = f + 1 := ⟨numKeys * 5 - 1, by omega⟩
  rw [poolNext, hf]
  exact scanForClient_no_cooldown clients now idx f hne

/-- With no cooldowns, the pool walks the tail of the candidate list from
the cursor position, one candidate per call. -/
theorem poolTrace_no_cooldown (clients : List (String × String)) (now numKeys : Nat)
    (hnk : 1 ≤ numKeys) (hne : clients ≠ []) :
    ∀ j idx, idx + j = clients.length →
      poolTrace clients [] now numKeys idx j = clients.drop idx := by
  intro j
  induction j with
  | zero =>
    intro idx h
    rw [Nat.add_zero] at h
    rw [h, List.drop_length]
    rfl
  | succ n ih =>
    intro idx h
    have hidx : idx < clients.length := by omega
    unfold poolTrace
    rw [poolNext_no_cooldown clients now numKeys idx hnk hne]
    dsimp only
    rw [Nat.mod_eq_of_lt hidx, List.getD_eq_getElem _ _ hidx, ih (idx + 1) (by omega)]
    exact (List.drop_eq_getElem_cons hidx).symm

/-- The cross product matches the library list product. -/
theorem crossClients_eq_sprod (apiKeys models : List String) :
    crossClients apiKeys models = apiKeys ×ˢ models := rfl

/-- C8.  With no cooldown active and `force_best_model=False`, successive
pool `next()` calls starting at cursor 0 return exactly the credential ×
model cross product, in the fixed order `clients = [(k, m) for k in
api_keys for m in models]` built by `_init_client_generators`; for
duplicate-free key and model lists the pairs are pairwise distinct (each
appears exactly once), and the call after the full cycle returns the first
pair again. -/
theorem claim8_round_robin_cycle (apiKeys models : List String) (now : Nat)
    (hk : apiKeys ≠ []) (hm : models ≠ []) (hdk : apiKeys.Nodup) (hdm : models.Nodup) :
    poolTrace (crossClients apiKeys models) [] now apiKeys.length 0
        (crossClients apiKeys models).length = crossClients apiKeys models ∧
    (crossClients apiKeys models).Nodup ∧
    poolNext (crossClients apiKeys models) [] now apiKeys.length
        (crossClients apiKeys models).length =
      some ((crossClients apiKeys models).getD 0 ("", ""),
        (crossClients apiKeys models).length + 1) := by
  have hnk : 1 ≤ apiKeys.length := List.length_pos.mpr hk
  have hne : crossClients apiKeys models ≠ [] := by
    rw [crossClients_eq_sprod]
    intro hcon
    have hlen := List.length_product apiKeys models
    rw [hcon] at hlen
    simp only [List.length_nil] at hlen
    have hml : 1 ≤ models.length := List.length_pos.mpr hm
    exact absurd hlen.symm (Nat.pos_iff_ne_zero.mp (Nat.mul_pos hnk hml))
  refine ⟨?_, ?_, ?_⟩
  · rw [poolTrace_no_cooldown _ now _ hnk hne _ 0 (Nat.zero_add _)]
    exact List.drop_zero _
  · rw [crossClients_eq_sprod]
    exact hdk.product hdm
  · rw [poolNext_no_cooldown _ now _ _ hnk hne, Nat.mod_self]

/-- Witness for C8 at two keys and two models. -/
theorem claim8_witness :
    poolTrace (crossClients ["k1", "k2"] ["m1", "m2"]) [] 7 ["k1", "k2"].length 0
        (crossClients ["k1", "k2"] ["m1", "m2"]).length =
      crossClients ["k1", "k2"] ["m1", "m2"] ∧
    (crossClients ["k1", "k2"] ["m1", "m2"]).Nodup ∧
    poolNext (crossClients ["k1", "k2"] ["m1", "m2"]) [] 7 ["k1", "k2"].length
        (crossClients ["k1", "k2"] ["m1", "m2"]).length =
      some ((crossClients ["k1", "k2"] ["m1", "m2"]).getD 0 ("", ""),
        (crossClients ["k1", "k2"] ["m1", "m2"]).length + 1) :=
  claim8_round_robin_cycle ["k1", "k2"] ["m1", "m2"] 7 (by decide) (by decide)
    (by decide) (by decide)

/-- C10.  Whenever a `get_available_client_details` generator yields at all
(some credential was off cooldown), it yields exactly one value — a
2-tuple `(api_key, model_name)` — and then terminates, so the next
`next()` on the same generator object raises `StopIteration`; and the
worker's attempt loop, which acquires every attempt's credentials by
3-ary unpacking of `next()` on the one generator created at thread start,
crashes on that 2-tuple with a `ValueError` that leaves the job's future
unresolved and the cooldown map untouched. -/
theorem claim10_single_yield_generator (g : ClientGen) (cooldowns : List (String × Nat))
    (now : Nat) (tup : List String) (g' : ClientGen)
    (maxAttempts cooldownSeconds attemptIdx callIdx : Nat) (sleeps : List Nat)
    (lastExc : Option GError) (transport : Nat → Except GError String)
    (h : genNext g cooldowns now = .yieldedTup tup g') :
    tup.length = 2 ∧ unpackClient3 tup = none ∧ g'.yielded = true ∧
    genNext g' cooldowns now = .stopIter ∧
    attemptLoop cooldownSeconds now transport (maxAttempts + 1) attemptIdx callIdx g
        cooldowns sleeps lastExc =
      ⟨.crashedUnresolved "ValueError: not enough values to unpack (expected 3, got 2)",
        cooldowns, g', callIdx, sleeps⟩ := by
  unfold genNext at h
  cases hy : g.yielded with
  | true => rw [hy] at h; simp at h
  | false =>
    rw [hy] at h
    simp only [Bool.false_eq_true, if_false] at h
    cases hscan : scanForClient g.clients cooldowns now g.idx g.maxChecks with
    | none => rw [hscan] at h; simp at h
    | some pi =>
      obtain ⟨p, idx'⟩ := pi
      rw [hscan] at h
      dsimp only at h
      injection h with h1 h2
      subst h1
      subst h2
      have hg : genNext g cooldowns now =
          .yieldedTup [p.1, p.2] { g with idx := idx', yielded := true } := by
        unfold genNext
        rw [hy]
        simp only [Bool.false_eq_true, if_false]
        rw [hscan]
      refine ⟨rfl, rfl, rfl, by simp [genNext], ?_⟩
      unfold attemptLoop
      rw [hg]
      rfl

/-- Witness for C10: a one-credential pool with no cooldown yields
`("k1", "m1")` once, then `StopIteration`; the attempt loop crashes
without resolving the job even though the mock transport would succeed on
its third call. -/
theorem claim10_witness :
    (["k1", "m1"] : List String).length = 2 ∧
    unpackClient3 ["k1", "m1"] = none ∧
    (⟨[("k1", "m1")], 1, 5, true⟩ : ClientGen).yielded = true ∧
    genNext ⟨[("k1", "m1")], 1, 5, true⟩ [] 0 = .stopIter ∧
    attemptLoop 60 0 transport503 (0 + 1) 0 0 (freshGen [("k1", "m1")] 0 1) [] [] none =
      ⟨.crashedUnresolved "ValueError: not enough values to unpack (expected 3, got 2)",
        [], ⟨[("k1", "m1")], 1, 5, true⟩, 0, []⟩ :=
  claim10_single_yield_generator (freshGen [("k1", "m1")] 0 1) [] 0 ["k1", "m1"]
    ⟨[("k1", "m1")], 1, 5, true⟩ 0 60 0 0 [] none transport503 (by decide)

/-- Witness for C9 at the worker's default backoff parameters, attempt 0,
jitter draw 1/4. -/
theorem claim9_witness :
    sleepWithJitter 1 10 0 (1 / 4) = min 10 (1 * (0 + 1)) * (1 / 2 + 1 / 4) ∧
    1 / 2 * backoffOf 1 10 0 ≤ sleepWithJitter 1 10 0 (1 / 4) ∧
    sleepWithJitter 1 10 0 (1 / 4) < 3 / 2 * backoffOf 1 10 0 :=
  claim9_jitter_bounds 1 10 (1 / 4) 0 (by norm_num) (by norm_num) (by norm_num)
    (by norm_num)

/-- C1.  On the 503-twice-then-success transport with `max_attempts = 3`,
the dispatcher neither resolves the job's future nor marks any cooldown:
the job tuple enqueued by the client has five fields where the worker
unpacks four (first conjunct), and even a four-field job crashes on the
3-ary unpacking of the generator's 2-tuple before any external call is
made (second conjunct) — in both runs the cooldown map stays empty and
`callsMade = 0`. -/
theorem claim1_retry_scenario_never_resolves :
    runOneJob 3 60 0 transport503 (clientJobTuple 0)
        (freshGen (crossClients ["k1", "k2", "k3"] ["m1"]) 0 3) [] =
      ⟨.crashedUnresolved "ValueError: too many values to unpack (expected 4, got 5)",
        [], freshGen (crossClients ["k1", "k2", "k3"] ["m1"]) 0 3, 0, []⟩ ∧
    runOneJob 3 60 0 transport503 [.messagesF, .genConfigF, .futureF, .loopF]
        (freshGen (crossClients ["k1", "k2", "k3"] ["m1"]) 0 3) [] =
      ⟨.crashedUnresolved "ValueError: not enough values to unpack (expected 3, got 2)",
        [], ⟨crossClients ["k1", "k2", "k3"] ["m1"], 1, 15, true⟩, 0, []⟩ := by decide

/-- C6.  The error classifier is right — 400 is non-retryable, 429 is
retryable — but on the always-400 transport the dispatcher never rejects
the job's future: it crashes on the same generator unpacking before the
single attempt can run (`callsMade = 0`, no backoff sleep, outcome is the
unhandled `ValueError`, not `futureRejected`). -/
theorem claim6_fatal_400_not_rejected :
    isRetryableException (.clientError 400 "Bad Request") = (false, some 400) ∧
    isRetryableException (.clientError 429 "rate limited") = (true, some 429) ∧
    isRetryableException (.serverError 503 "Service Unavailable") = (true, some 503) ∧
    runOneJob 3 60 0 transport400 [.messagesF, .genConfigF, .futureF, .loopF]
        (freshGen (crossClients ["k1", "k2", "k3"] ["m1"]) 0 3) [] =
      ⟨.crashedUnresolved "ValueError: not enough values to unpack (expected 3, got 2)",
        [], ⟨crossClients ["k1", "k2", "k3"] ["m1"], 1, 15, true⟩, 0, []⟩ := by decide

/-- C2.  On a pending directory holding exactly one retried job `j1`
(submitted, claimed, then requeued with retry count 1), `get_next_job`
claims the phantom job `"j1.retry"`: the glob filter drops only `.status`
names, so `j1.retry.json` itself passes as a job file and — lacking a
`j1.retry.retry.json` sibling — counts as non-retried.  The call returns
the retry metadata as the payload with retry count 0, and the real job's
data and status files are left behind under `pending/`. -/
theorem claim2_claims_phantom_retry_file :
    (getNextJob (requeueJobForRetry
        (getNextJob (submitJob emptyStore "j1" "PAYLOAD1" 0) 1).2
        "j1" 1 "schema mismatch" 2) 3).1 =
      some ("j1.retry", .retryD ⟨1, "schema mismatch"⟩, 0) ∧
    fexists (getNextJob (requeueJobForRetry
        (getNextJob (submitJob emptyStore "j1" "PAYLOAD1" 0) 1).2
        "j1" 1 "schema mismatch" 2) 3).2.pending "j1.json" = true ∧
    fexists (getNextJob (requeueJobForRetry
        (getNextJob (submitJob emptyStore "j1" "PAYLOAD1" 0) 1).2
        "j1" 1 "schema mismatch" 2) 3).2.pending "j1.status.json" = true := by decide

/-- C3.  One iteration of the `main.py` orchestrator on a store holding one
fresh pending job, with a processor that would raise a content-validation
error: the iteration crashes unpacking `get_next_job`'s 3-tuple into two
names, so the claimed job is stranded in `processing/` — it is neither
requeued for retry (`requeue_job_for_retry` has no caller in the loop, and
`pending/` ends empty) nor transitioned to FAILED (`failed/` ends
empty). -/
theorem claim3_orchestrator_never_requeues :
    workerStep (submitJob emptyStore "j1" "PAYLOAD1" 0)
        (fun _ => .error "ContentValidationError: schema validation failed") 1 =
      (.crashedLoop "ValueError: too many values to unpack (expected 2, got 3)",
        ⟨[],
         [⟨"j1.json", .payloadD "PAYLOAD1", 1⟩,
          ⟨"j1.status.json",
            .statusD ⟨"j1", "processing", "Worker processing (Attempt #1).", 0, 1, 0, none⟩,
            1⟩],
         [], []⟩) := by decide

/-- Counterexample to C4: submitting `"j1"` twice raises nothing and does
not leave the existing files unchanged — the second `submit_job` silently
overwrites the pending payload and status records. -/
theorem claim4_counterexample_duplicate_overwrites :
    fread (submitJob (submitJob emptyStore "j1" "P1" 0) "j1" "P2" 1).pending "j1.json" =
      some (.payloadD "P2") ∧
    fread (submitJob (submitJob emptyStore "j1" "P1" 0) "j1" "P2" 1).pending
        "j1.status.json" =
      some (.statusD ⟨"j1", "pending", "Job is waiting in the queue.", 1, 1, 0, none⟩) := by
  decide

/-! Helper lemmas for the amended C4. -/

theorem fread_fwrite_self (d : Dir) (n : String) (c : FileData) (t : Nat) :
    fread (fwrite d n c t) n = some c := by
  induction d with
  | nil => simp [fwrite, fread]
  | cons e rest ih =>
    by_cases h : e.name = n
    · simp [fwrite, fread, h]
    · simp only [fwrite, fread] at ih ⊢
      have hb : (e.name == n) = false := by simp [h]
      rw [hb]
      simp only [Bool.false_eq_true, if_false, List.find?]
      rw [hb]
      exact ih

theorem fread_fwrite_ne (d : Dir) (n n2 : String) (c : FileData) (t : Nat)
    (h : n ≠ n2) : fread (fwrite d n2 c t) n = fread d n := by
  induction d with
  | nil =>
    simp only [fwrite, fread, List.find?]
    have : (n2 == n) = false := by simp [Ne.symm h]
    rw [this]
  | cons e rest ih =>
    by_cases he : e.name = n2
    · have h1 : (e.name == n2) = true := by simp [he]
      have h2 : (n2 == n) = false := by simp [Ne.symm h]
      have h3 : (e.name == n) = false := by simp [he, Ne.symm h]
      simp only [fwrite, fread, List.find?, h1, if_true]
      rw [h2, h3]
    · have h1 : (e.name == n2) = false := by simp [he]
      simp only [fwrite, h1, Bool.false_eq_true, if_false]
      by_cases hen : e.name = n
      · have h2 : (e.name == n) = true := by simp [hen]
        simp only [fread, List.find?, h2]
      · have h2 : (e.name == n) = false := by simp [hen]
        simp only [fread, List.find?, h2] at ih ⊢
        exact ih

theorem strAppendNe (a : String) {b c : String} (h : b ≠ c) : a ++ b ≠ a ++ c := by
  intro he
  exact h (by
    have hd : a.data ++ b.data = a.data ++ c.data := by
      have := congrArg String.data he
      simpa using this
    exact String.ext (List.append_cancel_left hd))

theorem submitJob_pending (s : Store) (jobId payload : String) (now : Nat) :
    (submitJob s jobId payload now).pending =
      fwrite (fwrite s.pending (jobId ++ ".json") (.payloadD payload) now)
        (jobId ++ ".status.json")
        (.statusD ⟨jobId, "pending", "Job is waiting in the queue.", now, now, 0, none⟩)
        now := rfl

theorem submitJob_processing (s : Store) (jobId payload : String) (now : Nat) :
    (submitJob s jobId payload now).processing = s.processing := rfl

theorem submitJob_completed (s : Store) (jobId payload : String) (now : Nat) :
    (submitJob s jobId payload now).completed = s.completed := rfl

theorem submitJob_failed (s : Store) (jobId payload : String) (now : Nat) :
    (submitJob s jobId payload now).failed = s.failed := rfl

/-- Amended C4.  `submit_job` performs no duplicate check at all: for every
store — whether or not the job id already exists in any state — it
(re)creates the job in PENDING with retry count 0, overwriting any
existing pending payload/status files for that id, leaves the other three
state directories untouched, and never fails. -/
theorem claim4_amended_submit_unconditional (s : Store) (jobId payload : String)
    (now : Nat) :
    fread (submitJob s jobId payload now).pending (jobId ++ ".json") =
      some (.payloadD payload) ∧
    fread (submitJob s jobId payload now).pending (jobId ++ ".status.json") =
      some (.statusD ⟨jobId, "pending", "Job is waiting in the queue.", now, now, 0, none⟩) ∧
    (submitJob s jobId payload now).processing = s.processing ∧
    (submitJob s jobId payload now).completed = s.completed ∧
    (submitJob s jobId payload now).failed = s.failed := by
  have hne : jobId ++ ".json" ≠ jobId ++ ".status.json" := strAppendNe _ (by decide)
  refine ⟨?_, ?_, rfl, rfl, rfl⟩
  · rw [submitJob_pending, fread_fwrite_ne _ _ _ _ _ hne, fread_fwrite_self]
  · rw [submitJob_pending, fread_fwrite_self]

/-- Witness for the amended C4: resubmission over a store already holding
`"j1"` in COMPLETED. -/
theorem claim4_amended_witness :
    fread (submitJob ⟨[], [], [⟨"j1.json", .payloadD "OLD", 0⟩], []⟩ "j1" "P2" 5).pending
        ("j1" ++ ".json") = some (.payloadD "P2") ∧
    fread (submitJob ⟨[], [], [⟨"j1.json", .payloadD "OLD", 0⟩], []⟩ "j1" "P2" 5).pending
        ("j1" ++ ".status.json") =
      some (.statusD ⟨"j1", "pending", "Job is waiting in the queue.", 5, 5, 0, none⟩) ∧
    (submitJob ⟨[], [], [⟨"j1.json", .payloadD "OLD", 0⟩], []⟩ "j1" "P2" 5).processing =
      (⟨[], [], [⟨"j1.json", .payloadD "OLD", 0⟩], []⟩ : Store).processing ∧
    (submitJob ⟨[], [], [⟨"j1.json", .payloadD "OLD", 0⟩], []⟩ "j1" "P2" 5).completed =
      (⟨[], [], [⟨"j1.json", .payloadD "OLD", 0⟩], []⟩ : Store).completed ∧
    (submitJob ⟨[], [], [⟨"j1.json", .payloadD "OLD", 0⟩], []⟩ "j1" "P2" 5).failed =
      (⟨[], [], [⟨"j1.json", .payloadD "OLD", 0⟩], []⟩ : Store).failed :=
  claim4_amended_submit_unconditional ⟨[], [], [⟨"j1.json", .payloadD "OLD", 0⟩], []⟩
    "j1" "P2" 5
